import Mathlib

/-
Verification of the rockfall risk-assessment core of this repository.

The visible Python code of this repository (main.py, validate_system.py,
test_risk_api.py, demo.py, test_api.py, test_video_integration.py) is
orchestration and test glue around analytic engines (RiskScoringEngine,
DEMRiskAnalyzer, ZoneClusterer, AlertManager) whose implementation files are
not part of the visible sources.  Those engines are therefore modelled from
the specification, faithful to its words, while the orchestration behaviour
(mode dispatch and exit codes of main, and the report shape dereferenced by
RockfallSystem.analyze_dem) is embedded directly from main.py.

Real numbers of the Python code are embedded as rationals; the arctangent
and standard-deviation steps of the terrain derivatives (missing code,
specified only by example) are represented by computable monotone rational
surrogates, documented at their definitions.  No claim in this development
depends on the numeric values these surrogates produce.
-/

/-- Risk categories shared by the per-cell classifier and the scoring engine
(spec section 3: both use the set LOW, MODERATE, HIGH, CRITICAL). -/
inductive RiskLevel where
  | LOW
  | MODERATE
  | HIGH
  | CRITICAL
deriving DecidableEq, Repr

/-- Numeric rank of a risk level, used for threshold comparisons. -/
def levelRank : RiskLevel → ℕ
  | .LOW => 0
  | .MODERATE => 1
  | .HIGH => 2
  | .CRITICAL => 3

/-- Modelled from the spec: the fixed risk-level cutpoints (score below 0.25
is LOW, below 0.5 MODERATE, below 0.75 HIGH, otherwise CRITICAL).  This is
the single place a level is derived from a score, reused everywhere. -/
def riskLevelOfScore (q : ℚ) : RiskLevel :=
  if q < 1/4 then .LOW
  else if q < 1/2 then .MODERATE
  else if q < 3/4 then .HIGH
  else .CRITICAL

/-- Maximum of two rationals, written with a conditional so evaluation
reduces under the kernel. -/
def maxQ (a b : ℚ) : ℚ := if a ≤ b then b else a

/-- Minimum of two rationals, written with a conditional so evaluation
reduces under the kernel. -/
def minQ (a b : ℚ) : ℚ := if a ≤ b then a else b

/-- Clamp a rational to the unit interval. -/
def clamp01 (q : ℚ) : ℚ := maxQ 0 (minQ 1 q)

/-- The 19 recognized environmental/sensor feature names (spec section 3 and
the request body of test_risk_api.py). -/
inductive FeatureName where
  | slope
  | elevation
  | fracture_density
  | roughness
  | slope_variability
  | instability_index
  | wetness_index
  | month
  | day_of_year
  | season
  | rainfall
  | temperature
  | temperature_variation
  | freeze_thaw_cycles
  | seismic_activity
  | wind_speed
  | precipitation_intensity
  | humidity
  | risk_score
deriving DecidableEq, Repr

/-- The list of all 19 required features, in wire order. -/
def requiredFeatures : List FeatureName :=
  [.slope, .elevation, .fracture_density, .roughness, .slope_variability,
   .instability_index, .wetness_index, .month, .day_of_year, .season,
   .rainfall, .temperature, .temperature_variation, .freeze_thaw_cycles,
   .seismic_activity, .wind_speed, .precipitation_intensity, .humidity,
   .risk_score]

/-- A raw (possibly incomplete) feature payload, as sent by callers such as
test_risk_assessment in test_risk_api.py. -/
def FeaturePayload : Type := List (FeatureName × ℚ)

/-- Look a feature up in a raw payload. -/
def lookupFeature (input : FeaturePayload) (n : FeatureName) : Option ℚ :=
  match input with
  | [] => none
  | (m, v) :: rest => if m = n then some v else lookupFeature rest n

/-- A validated vector of the 19 environmental features (spec section 3,
EnvironmentalFeatureVector). -/
structure EnvFeatures where
  slope : ℚ
  elevation : ℚ
  fracture_density : ℚ
  roughness : ℚ
  slope_variability : ℚ
  instability_index : ℚ
  wetness_index : ℚ
  month : ℚ
  day_of_year : ℚ
  season : ℚ
  rainfall : ℚ
  temperature : ℚ
  temperature_variation : ℚ
  freeze_thaw_cycles : ℚ
  seismic_activity : ℚ
  wind_speed : ℚ
  precipitation_intensity : ℚ
  humidity : ℚ
  risk_score : ℚ
deriving DecidableEq, Repr

/-- True when every one of the 19 required features is present. -/
def allFeaturesPresent (input : FeaturePayload) : Bool :=
  requiredFeatures.all (fun n => (lookupFeature input n).isSome)

/-- Read one feature from a payload already checked for completeness (the
fallback value is unreachable after allFeaturesPresent). -/
def getF (input : FeaturePayload) (n : FeatureName) : ℚ :=
  (lookupFeature input n).getD 0

/-- Assemble the validated feature record from a complete payload. -/
def buildFeatures (input : FeaturePayload) : EnvFeatures :=
  { slope := getF input .slope
    elevation := getF input .elevation
    fracture_density := getF input .fracture_density
    roughness := getF input .roughness
    slope_variability := getF input .slope_variability
    instability_index := getF input .instability_index
    wetness_index := getF input .wetness_index
    month := getF input .month
    day_of_year := getF input .day_of_year
    season := getF input .season
    rainfall := getF input .rainfall
    temperature := getF input .temperature
    temperature_variation := getF input .temperature_variation
    freeze_thaw_cycles := getF input .freeze_thaw_cycles
    seismic_activity := getF input .seismic_activity
    wind_speed := getF input .wind_speed
    precipitation_intensity := getF input .precipitation_intensity
    humidity := getF input .humidity
    risk_score := getF input .risk_score }

/-- Modelled from the spec: physical-range validation (spec section 4.5 names
slope in [0, 90] and humidity in [0, 100] as the documented ranges). -/
def featureRangesOk (f : EnvFeatures) : Bool :=
  decide (0 ≤ f.slope) && decide (f.slope ≤ 90) &&
  decide (0 ≤ f.humidity) && decide (f.humidity ≤ 100)

/-- Modelled from the spec: feature validation of the missing
RiskScoringEngine.  A payload missing any required feature, or with a value
outside its documented physical range, is a ValidationError; no partial
result is produced and no missing feature is defaulted. -/
def parseFeatures (input : FeaturePayload) : Except String EnvFeatures :=
  if allFeaturesPresent input then
    let f := buildFeatures input
    if featureRangesOk f then Except.ok f
    else Except.error ("ValidationError: feature out of physical range")
  else Except.error ("ValidationError: missing required feature")

/-- A scoring sub-model: a named pure function from features to a score
(spec section 4.5 and section 9, the Scorer capability). -/
def SubModel : Type := String × (EnvFeatures → ℚ)

/-- Evaluate every configured sub-model on a feature vector, preserving
configuration order (insertion order equals evaluation order). -/
def modelScores (models : List SubModel) (f : EnvFeatures) : List (String × ℚ) :=
  models.map (fun m => (m.1, m.2 f))

/-- Maximum of a rational list (0 for the empty list). -/
def listMax : List ℚ → ℚ
  | [] => 0
  | [x] => x
  | x :: y :: rest => maxQ x (listMax (y :: rest))

/-- Minimum of a rational list (0 for the empty list). -/
def listMin : List ℚ → ℚ
  | [] => 0
  | [x] => x
  | x :: y :: rest => minQ x (listMin (y :: rest))

/-- A risk assessment as returned by the scoring engine (spec sections 3 and
6: score, level, confidence, per-model predictions, recommendations). -/
structure RiskAssessment where
  risk_score : ℚ
  risk_level : RiskLevel
  confidence : ℚ
  model_predictions : List (String × ℚ)
  recommendations : List String
deriving DecidableEq, Repr

/-- Modelled from the spec: the recommendation rules of the missing engine.
Rules are independent and fire in combination against individual feature
thresholds (spec section 4.5 gives the seismic-activity rule as the example);
a generic inspection recommendation fires at level MODERATE and above so that
recommendations are non-empty whenever risk_level is at least MODERATE
(spec section 3, RiskAssessment invariant). -/
def buildRecs (f : EnvFeatures) (lvl : RiskLevel) : List String :=
  (if 3 ≤ f.seismic_activity then
    ["Increase monitoring frequency near active zones"] else [])
  ++ (if 45 ≤ f.slope then
    ["Install rockfall protection on steep slope sections"] else [])
  ++ (if 50 ≤ f.rainfall then
    ["Review drainage controls after heavy rainfall"] else [])
  ++ (if 10 ≤ f.freeze_thaw_cycles then
    ["Inspect rock joints after freeze-thaw episodes"] else [])
  ++ (if 1 ≤ levelRank lvl then
    ["Schedule detailed slope inspection"] else [])

/-- Modelled from the spec: RiskScoringEngine.score (section 4.5).  The
payload is validated, every configured sub-model is evaluated, the final
risk_score is the equal-weight average of the sub-model scores, the level
comes from the shared cutpoints, and confidence is 1 minus the spread of the
sub-model predictions clamped to the unit interval (a computable surrogate
for the normalized standard deviation the spec gives as its example). -/
def score (models : List SubModel) (input : FeaturePayload) :
    Except String RiskAssessment :=
  match parseFeatures input with
  | Except.error e => Except.error e
  | Except.ok f =>
    let preds := modelScores models f
    let vals := preds.map Prod.snd
    let rs : ℚ := vals.sum / (vals.length : ℚ)
    let lvl := riskLevelOfScore rs
    Except.ok
      { risk_score := rs
        risk_level := lvl
        confidence := clamp01 (1 - (listMax vals - listMin vals))
        model_predictions := preds
        recommendations := buildRecs f lvl }

/-- Modelled from the spec: the raw feature-derived base risk used by the
identity sub-model of the test scenario (spec section 8): an equal-purpose
weighted combination of the normalized risk drivers, with slope and seismic
activity dominant, clamped to the unit interval.  Weights sum to one. -/
def baseScore (f : EnvFeatures) : ℚ :=
  clamp01 (3/10 * clamp01 (f.slope / 90)
    + 1/5 * clamp01 (f.seismic_activity / 10)
    + 1/5 * clamp01 f.instability_index
    + 1/10 * clamp01 (f.rainfall / 200)
    + 1/10 * clamp01 (f.freeze_thaw_cycles / 30)
    + 1/10 * clamp01 (f.fracture_density / 10))

/-- Modelled from the spec: the single identity sub-model of the scenario in
spec section 8 — it applies the identity transformation to the base
feature-derived risk. -/
def identityModel (f : EnvFeatures) : ℚ := baseScore f

/-- The concrete feature payload of the scenario in spec section 8 and
test_risk_api.py (month 6, day_of_year 170, season 1). -/
def c3Input : FeaturePayload :=
  [(.slope, 45), (.elevation, 1500), (.fracture_density, 16/5),
   (.roughness, 7/10), (.slope_variability, 2/5), (.instability_index, 3/5),
   (.wetness_index, 3/10), (.month, 6), (.day_of_year, 170), (.season, 1),
   (.rainfall, 75), (.temperature, 15), (.temperature_variation, 8),
   (.freeze_thaw_cycles, 12), (.seismic_activity, 7/2), (.wind_speed, 25),
   (.precipitation_intensity, 8), (.humidity, 65), (.risk_score, 0)]

/-- The scenario payload with the humidity feature removed (used to witness
the missing-feature validation error). -/
def c7Input : FeaturePayload :=
  [(.slope, 45), (.elevation, 1500), (.fracture_density, 16/5),
   (.roughness, 7/10), (.slope_variability, 2/5), (.instability_index, 3/5),
   (.wetness_index, 3/10), (.month, 6), (.day_of_year, 170), (.season, 1),
   (.rainfall, 75), (.temperature, 15), (.temperature_variation, 8),
   (.freeze_thaw_cycles, 12), (.seismic_activity, 7/2), (.wind_speed, 25),
   (.precipitation_intensity, 8), (.risk_score, 0)]

/-- Row-major list of the cell coordinates of a rows-by-cols grid. -/
def gridCells (rows cols : ℕ) : List (ℕ × ℕ) :=
  ((List.range rows).map (fun r => (List.range cols).map (fun c => (r, c)))).flatten

/-- A classified label grid, the input contract of ZoneClusterer (spec
section 4.3): cell labels (none marks NODATA cells), cell size, and the
slope surface used for zone statistics. -/
structure LabelGrid where
  rows : ℕ
  cols : ℕ
  cellSize : ℚ
  label : ℕ → ℕ → Option RiskLevel
  slopeAt : ℕ → ℕ → ℚ

/-- A cell qualifies for clustering when it is in bounds and labeled HIGH or
CRITICAL (spec section 4.3). -/
def qualifiesAt (g : LabelGrid) (p : ℕ × ℕ) : Bool :=
  decide (p.1 < g.rows) && decide (p.2 < g.cols) &&
    match g.label p.1 p.2 with
    | some .HIGH => true
    | some .CRITICAL => true
    | _ => false

/-- The 4-connected neighbors of a cell (no wraparound; the guards keep
natural-number subtraction from aliasing a border cell onto itself). -/
def nbrs4 (p : ℕ × ℕ) : List (ℕ × ℕ) :=
  (if 0 < p.1 then [(p.1 - 1, p.2)] else [])
  ++ (if 0 < p.2 then [(p.1, p.2 - 1)] else [])
  ++ [(p.1 + 1, p.2), (p.1, p.2 + 1)]

/-- Modelled from the spec: the flood-fill pass of the missing ZoneClusterer
(spec sections 4.3 and 9: single-pass connected-component labeling over
qualifying cells).  Cells already claimed by an earlier component (visited)
or already collected (comp) are skipped; the fuel bounds the recursion. -/
def floodFill (g : LabelGrid) :
    ℕ → List (ℕ × ℕ) → List (ℕ × ℕ) → List (ℕ × ℕ) → List (ℕ × ℕ)
  | 0, _, _, comp => comp
  | _ + 1, [], _, comp => comp
  | fuel + 1, p :: stack, visited, comp =>
    if p ∈ visited ∨ p ∈ comp ∨ qualifiesAt g p = false then
      floodFill g fuel stack visited comp
    else
      floodFill g fuel (nbrs4 p ++ stack) visited (p :: comp)

/-- Fuel sufficient for a full flood fill of the grid. -/
def clusterFuel (g : LabelGrid) : ℕ := (g.rows * g.cols + 1) * 5

/-- Modelled from the spec: the component-collection pass of the missing
ZoneClusterer.  Cells are scanned in row-major order; each unvisited
qualifying cell seeds a flood fill, and the collected component is added to
the visited set so components never overlap. -/
def components (g : LabelGrid) :
    List (ℕ × ℕ) → List (ℕ × ℕ) → List (List (ℕ × ℕ))
  | [], _ => []
  | p :: rest, visited =>
    if p ∈ visited ∨ qualifiesAt g p = false then components g rest visited
    else
      floodFill g (clusterFuel g) [p] visited [] ::
        components g rest (floodFill g (clusterFuel g) [p] visited [] ++ visited)

/-- Minimum of a list of naturals (0 for the empty list). -/
def natListMin : List ℕ → ℕ
  | [] => 0
  | [x] => x
  | x :: y :: rest => min x (natListMin (y :: rest))

/-- Maximum of a list of naturals. -/
def natListMax (l : List ℕ) : ℕ := l.foldr max 0

/-- A critical zone (spec section 3): its cells, area in map units, centroid,
mean slope, bounding box, and the row-major index of its anchor cell used as
the final ordering tie-break. -/
structure CriticalZone where
  cells : List (ℕ × ℕ)
  area : ℚ
  centroid : ℚ × ℚ
  mean_slope : ℚ
  bounding_box : ℕ × ℕ × ℕ × ℕ
  anchor : ℕ
deriving DecidableEq, Repr

/-- Modelled from the spec: build the CriticalZone record of one connected
component (area is cell count times cell size squared, spec section 3). -/
def mkZone (g : LabelGrid) (cells : List (ℕ × ℕ)) : CriticalZone :=
  let n : ℚ := (cells.length : ℚ)
  { cells := cells
    area := n * g.cellSize * g.cellSize
    centroid := ((cells.map (fun p => (p.1 : ℚ))).sum / n,
                 (cells.map (fun p => (p.2 : ℚ))).sum / n)
    mean_slope := (cells.map (fun p => g.slopeAt p.1 p.2)).sum / n
    bounding_box := (natListMin (cells.map Prod.fst),
                     natListMin (cells.map Prod.snd),
                     natListMax (cells.map Prod.fst),
                     natListMax (cells.map Prod.snd))
    anchor := natListMin (cells.map (fun p => p.1 * g.cols + p.2)) }

/-- Modelled from the spec: the zone ordering of section 4.3 — descending
area, ties by descending mean slope, then by ascending row-major anchor
index (deterministic, reproducible). -/
def zoneLE (a b : CriticalZone) : Bool :=
  decide (b.area < a.area) ||
    (decide (a.area = b.area) &&
      (decide (b.mean_slope < a.mean_slope) ||
        (decide (a.mean_slope = b.mean_slope) && decide (a.anchor ≤ b.anchor))))

/-- The candidate zones of a label grid: one per connected component of
qualifying cells, before the area filter. -/
def zoneCands (g : LabelGrid) : List CriticalZone :=
  (components g (gridCells g.rows g.cols) []).map (mkZone g)

/-- Modelled from the spec: ZoneClusterer.cluster (section 4.3).  Connected
components of HIGH/CRITICAL cells become candidate zones, zones with area
below min_area are discarded, and the rest are sorted by the deterministic
zone ordering. -/
def cluster (g : LabelGrid) (minArea : ℚ) : List CriticalZone :=
  ((zoneCands g).filter (fun z => decide (minArea ≤ z.area))).mergeSort zoneLE

/-- A raw elevation raster (spec section 3, RasterGrid): dimensions, cell
size, and per-cell elevation with none marking nodata. -/
structure RasterGrid where
  rows : ℕ
  cols : ℕ
  cellSize : ℚ
  elev : ℕ → ℕ → Option ℚ

/-- Absolute value on rationals, written to reduce under kernel evaluation. -/
def ratAbs (q : ℚ) : ℚ := if q < 0 then -q else q

/-- The 8-connected neighbors of a cell, with border guards. -/
def nbrs8 (p : ℕ × ℕ) : List (ℕ × ℕ) :=
  (if 0 < p.1 then
    (if 0 < p.2 then [(p.1 - 1, p.2 - 1)] else [])
      ++ [(p.1 - 1, p.2), (p.1 - 1, p.2 + 1)]
   else [])
  ++ (if 0 < p.2 then [(p.1, p.2 - 1), (p.1 + 1, p.2 - 1)] else [])
  ++ [(p.1, p.2 + 1), (p.1 + 1, p.2), (p.1 + 1, p.2 + 1)]

/-- Elevations of the valid in-bounds neighbors of a cell. -/
def validNbrVals (g : RasterGrid) (p : ℕ × ℕ) : List ℚ :=
  (nbrs8 p).filterMap (fun q =>
    if q.1 < g.rows && q.2 < g.cols then g.elev q.1 q.2 else none)

/-- Modelled from the spec: the missing TerrainDerivativeEngine (section
4.1), returning the pair of slope in degrees and roughness at a cell, or
none when the cell is nodata, out of bounds, or all its neighbors are nodata
(nodata propagation as specified).  The gradient is the steepest elevation
difference to a neighbor divided by the cell size; degrees come from the
computable monotone surrogate 90 g / (1 + g) for the arctangent (agreeing
with it at gradient 0, at gradient 1 where both give 45, and in the limit
90); roughness is the mean absolute deviation of the neighborhood, a
computable surrogate for its standard deviation.  No claim depends on the
numeric values of these surrogates. -/
def slopeRough (g : RasterGrid) (p : ℕ × ℕ) : Option (ℚ × ℚ) :=
  if p.1 < g.rows && p.2 < g.cols then
    match g.elev p.1 p.2 with
    | none => none
    | some v =>
      match validNbrVals g p with
      | [] => none
      | w :: ws =>
        let nv := w :: ws
        let grad := (listMax (nv.map (fun u => ratAbs (v - u)))) / g.cellSize
        let slopeDeg := 90 * grad / (1 + grad)
        let k : ℚ := ((nv.length : ℚ) + 1)
        let meanE := (v + nv.sum) / k
        let rough := (ratAbs (v - meanE)
          + (nv.map (fun u => ratAbs (u - meanE))).sum) / k
        some (slopeDeg, rough)
  else none

/-- Configuration of the DEM analysis (spec sections 4.2 and 4.3): the fixed
classification thresholds and the minimum zone area. -/
structure DEMConfig where
  criticalSlope : ℚ
  highSlope : ℚ
  highRoughness : ℚ
  moderateSlope : ℚ
  minArea : ℚ
deriving DecidableEq, Repr

/-- Modelled from the spec: the missing CellRiskClassifier (section 4.2).
CRITICAL if slope is at least the critical threshold; else HIGH if slope or
roughness reaches the high thresholds; else MODERATE if slope reaches the
moderate threshold; else LOW.  Nodata derivatives stay nodata. -/
def classifyCell (cfg : DEMConfig) (d : Option (ℚ × ℚ)) : Option RiskLevel :=
  match d with
  | none => none
  | some (s, r) =>
    if cfg.criticalSlope ≤ s then some .CRITICAL
    else if cfg.highSlope ≤ s ∨ cfg.highRoughness ≤ r then some .HIGH
    else if cfg.moderateSlope ≤ s then some .MODERATE
    else some .LOW

/-- The classified label grid of a raster under a configuration. -/
def labelGridOf (g : RasterGrid) (cfg : DEMConfig) : LabelGrid :=
  { rows := g.rows
    cols := g.cols
    cellSize := g.cellSize
    label := fun r c => classifyCell cfg (slopeRough g (r, c))
    slopeAt := fun r c => ((slopeRough g (r, c)).map Prod.fst).getD 0 }

/-- Number of valid (non-nodata, in-bounds) elevation cells. -/
def validCount (g : RasterGrid) : ℕ :=
  (gridCells g.rows g.cols).countP (fun p => (g.elev p.1 p.2).isSome)

/-- Number of cells receiving a valid (non-NODATA) risk label. -/
def labeledCount (g : RasterGrid) (cfg : DEMConfig) : ℕ :=
  (gridCells g.rows g.cols).countP
    (fun p => ((labelGridOf g cfg).label p.1 p.2).isSome)

/-- Number of cells carrying one specific risk label. -/
def countLabel (g : RasterGrid) (cfg : DEMConfig) (L : RiskLevel) : ℕ :=
  (gridCells g.rows g.cols).countP
    (fun p => decide ((labelGridOf g cfg).label p.1 p.2 = some L))

/-- One entry of the risk distribution: the percentage of valid cells with
the label, and their count. -/
structure DistEntry where
  percentage : ℚ
  cell_count : ℕ
deriving DecidableEq, Repr

/-- The DEM risk report (spec sections 3 and 6): per-label distribution over
valid cells, critical zones sorted by the zone ordering, and the maximum
slope. -/
structure RiskReport where
  low_risk : DistEntry
  moderate_risk : DistEntry
  high_risk : DistEntry
  critical_risk : DistEntry
  critical_zones : List CriticalZone
  max_slope : ℚ
deriving DecidableEq, Repr

/-- Modelled from the spec: DEMRiskAnalyzer.assess (section 4.4).  Fails with
a DataError on an empty grid, a non-positive cell size, an entirely-nodata
raster, or a raster none of whose cells can be classified (fail fast on
unusable rasters, spec section 7); otherwise produces the report, with
distribution percentages computed over the validly labeled cells only. -/
def assess (g : RasterGrid) (cfg : DEMConfig) : Except String RiskReport :=
  if g.rows = 0 ∨ g.cols = 0 then Except.error ("DataError: empty grid")
  else if g.cellSize ≤ 0 then
    Except.error ("DataError: non-positive cell size")
  else if validCount g = 0 then
    Except.error ("DataError: raster is entirely nodata")
  else if labeledCount g cfg = 0 then
    Except.error ("DataError: no classifiable cells")
  else
    let n : ℚ := (labeledCount g cfg : ℚ)
    let entry := fun L => DistEntry.mk (100 * (countLabel g cfg L : ℚ) / n)
      (countLabel g cfg L)
    Except.ok
      { low_risk := entry .LOW
        moderate_risk := entry .MODERATE
        high_risk := entry .HIGH
        critical_risk := entry .CRITICAL
        critical_zones := cluster (labelGridOf g cfg) cfg.minArea
        max_slope := listMax ((gridCells g.rows g.cols).filterMap
          (fun p => (slopeRough g p).map Prod.fst)) }

/-- A JSON-like value, used to state the exact wire shape of the risk report
consumed by RockfallSystem.analyze_dem in main.py. -/
inductive Json where
  | num : ℚ → Json
  | str : String → Json
  | arr : List Json → Json
  | obj : List (String × Json) → Json

/-- Key lookup in a JSON object field list. -/
def jLookup (kvs : List (String × Json)) (k : String) : Option Json :=
  match kvs with
  | [] => none
  | (k2, v) :: rest => if k2 = k then some v else jLookup rest k

/-- True exactly on numeric JSON values. -/
def isNum : Json → Bool
  | .num _ => true
  | _ => false

/-- The JSON of one distribution entry: a nested record with a percentage
field and a cell count, exactly the shape RockfallSystem.analyze_dem
dereferences at main.py line 208. -/
def entryJson (e : DistEntry) : Json :=
  .obj [("percentage", .num e.percentage),
        ("cell_count", .num (e.cell_count : ℚ))]

/-- The JSON of one critical zone. -/
def zoneJson (z : CriticalZone) : Json :=
  .obj [("area", .num z.area),
        ("centroid_row", .num z.centroid.1),
        ("centroid_col", .num z.centroid.2),
        ("mean_slope", .num z.mean_slope),
        ("cell_count", .num (z.cells.length : ℚ))]

/-- Modelled from the spec: the serialized risk report of the missing
generate_report, with the nested risk_distribution shape that the in-repo
consumer RockfallSystem.analyze_dem requires (main.py line 208 reads
report, key risk_distribution, key high_risk, key percentage). -/
def reportJson (rpt : RiskReport) : Json :=
  .obj [("risk_distribution",
          .obj [("low_risk", entryJson rpt.low_risk),
                ("moderate_risk", entryJson rpt.moderate_risk),
                ("high_risk", entryJson rpt.high_risk),
                ("critical_risk", entryJson rpt.critical_risk)]),
        ("critical_zones", .arr (rpt.critical_zones.map zoneJson)),
        ("max_slope", .num rpt.max_slope)]

/-- The shape asserted by the claim under examination: the value under
risk_distribution is an object whose values are all plain numbers. -/
def distDirectNumeric (j : Json) : Bool :=
  match j with
  | .obj kvs =>
    match jLookup kvs ("risk_distribution") with
    | some (.obj d) => d.all (fun kv => isNum kv.2)
    | _ => false
  | _ => false

/-- True when a JSON value is an object carrying a numeric percentage
field. -/
def entryHasNumericPercentage (j : Json) : Bool :=
  match j with
  | .obj kvs =>
    match jLookup kvs ("percentage") with
    | some (.num _) => true
    | _ => false
  | _ => false

/-- The actual nested shape: risk_distribution maps each of the four label
keys to a record with a numeric percentage field. -/
def distNestedShape (j : Json) : Bool :=
  match j with
  | .obj kvs =>
    match jLookup kvs ("risk_distribution") with
    | some (.obj d) =>
      [("low_risk" : String), "moderate_risk", "high_risk",
        "critical_risk"].all (fun k =>
          match jLookup d k with
          | some e => entryHasNumericPercentage e
          | none => false)
    | _ => false
  | _ => false

/-- The top-level keys of the report, in order. -/
def topShape (j : Json) : Bool :=
  match j with
  | .obj kvs =>
    kvs.map Prod.fst ==
      [("risk_distribution" : String), "critical_zones", "max_slope"]
  | _ => false

/-- Alert configuration (spec section 4.6): the threshold level at or above
which an alert fires, and the cooldown interval. -/
structure AlertConfig where
  threshold : RiskLevel
  cooldown : ℕ
deriving DecidableEq, Repr

/-- Per-entity alert state (spec section 3, AlertState): whether the entity
is in the ALERTED state, the time of the last alert, and the level that
triggered it. -/
structure AlertState where
  alerted : Bool
  lastAlertTime : ℕ
  lastLevel : RiskLevel
deriving DecidableEq, Repr

/-- An emitted alert event, recorded with its timestamp and triggering
level. -/
inductive AlertEvent where
  | alert (t : ℕ) (lvl : RiskLevel)
  | escalation (t : ℕ) (lvl : RiskLevel)
deriving DecidableEq, Repr

/-- Modelled from the spec: one scoring call through the missing
AlertManager (section 4.6).  QUIET to ALERTED with one alert when the level
reaches the threshold; while ALERTED, repeated calls at or below the alert
level emit nothing, a strict increase to a higher category emits an
escalation, and ALERTED returns to QUIET only once the level is below the
threshold and the cooldown has elapsed since the last alert. -/
def alertStep (cfg : AlertConfig) (st : AlertState) (t : ℕ) (lvl : RiskLevel) :
    AlertState × Option AlertEvent :=
  if st.alerted then
    if levelRank cfg.threshold ≤ levelRank lvl then
      if levelRank st.lastLevel < levelRank lvl then
        (AlertState.mk true t lvl, some (.escalation t lvl))
      else (st, none)
    else
      if cfg.cooldown ≤ t - st.lastAlertTime then
        (AlertState.mk false st.lastAlertTime lvl, none)
      else (st, none)
  else
    if levelRank cfg.threshold ≤ levelRank lvl then
      (AlertState.mk true t lvl, some (.alert t lvl))
    else (st, none)

/-- Fold a sequence of timestamped levels through the alert state machine,
collecting the emitted events in order. -/
def runAlerts (cfg : AlertConfig) (st : AlertState) :
    List (ℕ × RiskLevel) → AlertState × List AlertEvent
  | [] => (st, [])
  | (t, lvl) :: rest =>
    let step1 := alertStep cfg st t lvl
    let tail := runAlerts cfg step1.1 rest
    (tail.1, (match step1.2 with
      | some e => [e]
      | none => []) ++ tail.2)

/-- The operation modes of main.py (argparse choices, main.py lines
349 to 351). -/
inductive Mode where
  | train
  | detect
  | sensor
  | dem
  | dashboard
  | allMode
  | setup
deriving DecidableEq, Repr

/-- An exception escaping a mode handler, as Python distinguishes them in
main.py: KeyboardInterrupt versus every other exception. -/
inductive PyExc where
  | keyboardInterrupt
  | other (msg : String)
deriving DecidableEq, Repr

/-- RockfallSystem.train_model (main.py lines 73 to 107): the body runs under
a try that catches Exception and returns False (KeyboardInterrupt is not an
Exception subclass and propagates); a normal run returns True. -/
def train_model (inner : Except PyExc Bool) : Except PyExc Bool :=
  match inner with
  | Except.ok _ => Except.ok true
  | Except.error .keyboardInterrupt => Except.error .keyboardInterrupt
  | Except.error (.other _) => Except.ok false

/-- The main function of main.py (lines 396 to 453): the selected mode
handler runs inside a try; its boolean return value is discarded and control
falls through to return 0, a KeyboardInterrupt is caught and also reaches
return 0, and any other exception returns 1. -/
def mainExitCode (handler : Mode → Except PyExc Bool) (mode : Mode) : ℕ :=
  match handler mode with
  | Except.ok _ => 0
  | Except.error .keyboardInterrupt => 0
  | Except.error (.other _) => 1

/-- A flat 2-by-2 raster at elevation 100 with cell size 10 (the flat-grid
scenario family of spec section 8). -/
def flatGrid : RasterGrid :=
  { rows := 2
    cols := 2
    cellSize := 10
    elev := fun r c => if r < 2 && c < 2 then some 100 else none }

/-- A representative DEM configuration: slope cutpoints 45, 35, 25 degrees,
roughness cutoff one half, minimum zone area 100 map units. -/
def demCfg : DEMConfig :=
  { criticalSlope := 45
    highSlope := 35
    highRoughness := 1/2
    moderateSlope := 25
    minArea := 100 }

/-- The report assess produces on the flat grid: every cell LOW, no zones,
maximum slope zero. -/
def flatReport : RiskReport :=
  { low_risk := DistEntry.mk 100 4
    moderate_risk := DistEntry.mk 0 0
    high_risk := DistEntry.mk 0 0
    critical_risk := DistEntry.mk 0 0
    critical_zones := []
    max_slope := 0 }

/-- A 3-by-3 label grid whose top row is HIGH and the rest LOW, used as a
concrete clustering witness. -/
def gW : LabelGrid :=
  { rows := 3
    cols := 3
    cellSize := 1
    label := fun r c =>
      if r < 3 && c < 3 then (if r = 0 then some .HIGH else some .LOW)
      else none
    slopeAt := fun _ _ => 50 }

/-- A one-cell label grid whose single cell is HIGH, used as a concrete
clustering witness with a non-empty output. -/
def gW2 : LabelGrid :=
  { rows := 1
    cols := 1
    cellSize := 1
    label := fun r c => if r = 0 && c = 0 then some .HIGH else none
    slopeAt := fun _ _ => 50 }

/-- The single zone the clusterer returns on the one-cell HIGH grid. -/
def zoneW : CriticalZone :=
  { cells := [(0, 0)]
    area := 1
    centroid := (0, 0)
    mean_slope := 50
    bounding_box := (0, 0, 0, 0)
    anchor := 0 }

/-- Disjointness of two cell lists. -/
def cellsDisjoint (A B : List (ℕ × ℕ)) : Prop := ∀ x, x ∈ A → x ∉ B

/-- Decidable equality of engine results, so witnesses can be checked by
evaluation. -/
instance {ε α : Type _} [DecidableEq ε] [DecidableEq α] :
    DecidableEq (Except ε α) := fun a b =>
  match a, b with
  | Except.ok x, Except.ok y =>
    if h : x = y then isTrue (by rw [h])
    else isFalse (by intro hc; cases hc; exact h rfl)
  | Except.error x, Except.error y =>
    if h : x = y then isTrue (by rw [h])
    else isFalse (by intro hc; cases hc; exact h rfl)
  | Except.ok _, Except.error _ => isFalse (by intro hc; cases hc)
  | Except.error _, Except.ok _ => isFalse (by intro hc; cases hc)

/-- The assessment the engine returns on the scenario payload with the
single identity sub-model. -/
def c3Assessment : RiskAssessment :=
  { risk_score := 899/2000
    risk_level := .MODERATE
    confidence := 1
    model_predictions := [("identity", 899/2000)]
    recommendations :=
      ["Increase monitoring frequency near active zones",
       "Install rockfall protection on steep slope sections",
       "Review drainage controls after heavy rainfall",
       "Inspect rock joints after freeze-thaw episodes",
       "Schedule detailed slope inspection"] }

/-- Both clamp bounds of the unit-interval clamp. -/
theorem clamp01_mem (q : ℚ) : 0 ≤ clamp01 q ∧ clamp01 q ≤ 1 := by
  unfold clamp01 maxQ minQ
  split_ifs <;> constructor <;> linarith

/-- The identity sub-model scores inside the unit interval. -/
theorem identityModel_mem (f : EnvFeatures) :
    0 ≤ identityModel f ∧ identityModel f ≤ 1 := clamp01_mem _

/-- Characterization of the shared cutpoints. -/
theorem riskLevelOfScore_char (q : ℚ) :
    (q < 1/4 → riskLevelOfScore q = RiskLevel.LOW)
      ∧ (1/4 ≤ q → q < 1/2 → riskLevelOfScore q = RiskLevel.MODERATE)
      ∧ (1/2 ≤ q → q < 3/4 → riskLevelOfScore q = RiskLevel.HIGH)
      ∧ (3/4 ≤ q → riskLevelOfScore q = RiskLevel.CRITICAL) := by
  unfold riskLevelOfScore
  refine ⟨fun h => ?_, fun h h2 => ?_, fun h h2 => ?_, fun h => ?_⟩ <;>
    split_ifs <;> first | rfl | linarith

/-- The average of a list of unit-interval rationals is in the unit
interval (for the empty list the quotient is zero). -/
theorem avg_mem_unit (vals : List ℚ) (h0 : ∀ x ∈ vals, 0 ≤ x ∧ x ≤ 1) :
    0 ≤ vals.sum / (vals.length : ℚ)
      ∧ vals.sum / (vals.length : ℚ) ≤ 1 := by
  rcases Nat.eq_zero_or_pos vals.length with hl | hl
  · rw [hl]
    norm_num
  · have hlen : (0 : ℚ) < (vals.length : ℚ) := by exact_mod_cast hl
    have hs0 : 0 ≤ vals.sum := List.sum_nonneg (fun x hx => (h0 x hx).1)
    have hs1 : vals.sum ≤ (vals.length : ℚ) := by
      have h := List.sum_le_card_nsmul vals 1 (fun x hx => (h0 x hx).2)
      simpa using h
    exact ⟨div_nonneg hs0 hlen.le, by rw [div_le_one hlen]; exact hs1⟩

/-- C1: for every feature vector that passes validation, the engine returns
a RiskAssessment whose risk_score lies in the unit interval (given the
sub-model contract that each sub-model scores in the unit interval, spec
section 4.5), and whose risk_level is exactly the category the shared fixed
cutpoints assign to that score (below 0.25 LOW, below 0.5 MODERATE, below
0.75 HIGH, otherwise CRITICAL), the same cutpoint function used everywhere a
level is derived. -/
theorem score_in_unit_interval_and_cutpoints (models : List SubModel)
    (input : FeaturePayload) (a : RiskAssessment)
    (hok : score models input = Except.ok a)
    (hm : ∀ m ∈ models, ∀ g : EnvFeatures, 0 ≤ m.2 g ∧ m.2 g ≤ 1) :
    (0 ≤ a.risk_score ∧ a.risk_score ≤ 1)
      ∧ a.risk_level = riskLevelOfScore a.risk_score
      ∧ (a.risk_score < 1/4 → a.risk_level = RiskLevel.LOW)
      ∧ (1/4 ≤ a.risk_score → a.risk_score < 1/2 →
          a.risk_level = RiskLevel.MODERATE)
      ∧ (1/2 ≤ a.risk_score → a.risk_score < 3/4 →
          a.risk_level = RiskLevel.HIGH)
      ∧ (3/4 ≤ a.risk_score → a.risk_level = RiskLevel.CRITICAL) := by
  unfold score at hok
  cases hp : parseFeatures input with
  | error e => rw [hp] at hok; exact absurd hok (by simp)
  | ok f =>
    rw [hp] at hok
    simp only [Except.ok.injEq] at hok
    subst hok
    have hvals : ∀ x ∈ (modelScores models f).map Prod.snd,
        0 ≤ x ∧ x ≤ 1 := by
      intro x hx
      simp only [modelScores, List.map_map, List.mem_map,
        Function.comp] at hx
      obtain ⟨m, hm2, rfl⟩ := hx
      exact hm m hm2 f
    have havg := avg_mem_unit _ hvals
    refine ⟨havg, rfl, ?_, ?_, ?_, ?_⟩
    · exact fun h1 => (riskLevelOfScore_char _).1 h1
    · exact fun h1 h2 => (riskLevelOfScore_char _).2.1 h1 h2
    · exact fun h1 h2 => (riskLevelOfScore_char _).2.2.1 h1 h2
    · exact fun h1 => (riskLevelOfScore_char _).2.2.2 h1

/-- Evaluation of the engine on the scenario payload with the identity
sub-model. -/
theorem score_c3_eval :
    score [("identity", identityModel)] c3Input = Except.ok c3Assessment := by
  norm_num +decide [score, parseFeatures, allFeaturesPresent, requiredFeatures,
    lookupFeature, featureRangesOk, buildFeatures, getF, modelScores,
    identityModel, baseScore, clamp01, maxQ, minQ, listMax, listMin,
    riskLevelOfScore, buildRecs, levelRank, c3Input, c3Assessment]

/-- Witness for C1 at the scenario payload with the identity sub-model. -/
theorem score_in_unit_interval_and_cutpoints_witness :
    (0 ≤ c3Assessment.risk_score ∧ c3Assessment.risk_score ≤ 1)
      ∧ c3Assessment.risk_level = riskLevelOfScore c3Assessment.risk_score := by
  have h := score_in_unit_interval_and_cutpoints
    [("identity", identityModel)] c3Input c3Assessment score_c3_eval
    (fun m hmem g => by
      have hm1 : m = ("identity", identityModel) := by simpa using hmem
      rw [hm1]
      exact identityModel_mem g)
  exact ⟨h.1, h.2.1⟩

/-- C3: the scenario feature vector of spec section 8 (slope 45, elevation
1500, seismic activity 3.5, and so on), scored with the single identity
sub-model, yields a risk level of at least MODERATE and a non-empty
recommendations list. -/
theorem scenario_identity_moderate :
    ∃ a : RiskAssessment,
      score [("identity", identityModel)] c3Input = Except.ok a
        ∧ levelRank RiskLevel.MODERATE ≤ levelRank a.risk_level
        ∧ a.recommendations ≠ [] :=
  ⟨c3Assessment, score_c3_eval, by decide, by simp [c3Assessment]⟩

/-- C7: a payload missing any one of the 19 required features makes the
engine fail with the missing-feature ValidationError; no RiskAssessment is
produced and the missing feature is not defaulted to zero. -/
theorem missing_feature_validation_error (models : List SubModel)
    (input : FeaturePayload) (n : FeatureName)
    (hreq : n ∈ requiredFeatures) (hmiss : lookupFeature input n = none) :
    score models input =
      Except.error ("ValidationError: missing required feature") := by
  have hall : allFeaturesPresent input = false := by
    unfold allFeaturesPresent
    rw [List.all_eq_false]
    exact ⟨n, hreq, by simp [hmiss]⟩
  unfold score parseFeatures
  rw [hall]
  simp

/-- Witness for C7: the scenario payload with humidity removed fails. -/
theorem missing_feature_validation_error_witness :
    score [("identity", identityModel)] c7Input =
      Except.error ("ValidationError: missing required feature") :=
  missing_feature_validation_error [("identity", identityModel)] c7Input
    FeatureName.humidity (by decide) (by decide)

/-- C9: scoring and DEM assessment are deterministic — two calls on equal
inputs with equal sub-model sets and configurations return identical
results; both engines are pure functions of their arguments with no hidden
randomness. -/
theorem engines_deterministic (m1 m2 : List SubModel)
    (i1 i2 : FeaturePayload) (g1 g2 : RasterGrid) (c1 c2 : DEMConfig)
    (hm : m1 = m2) (hi : i1 = i2) (hg : g1 = g2) (hc : c1 = c2) :
    score m1 i1 = score m2 i2 ∧ assess g1 c1 = assess g2 c2 := by
  subst hm
  subst hi
  subst hg
  subst hc
  exact ⟨rfl, rfl⟩

/-- Witness for C9 at the scenario payload and the flat grid. -/
theorem engines_deterministic_witness :
    score [("identity", identityModel)] c3Input
          = score [("identity", identityModel)] c3Input
      ∧ assess flatGrid demCfg = assess flatGrid demCfg :=
  engines_deterministic [("identity", identityModel)]
    [("identity", identityModel)] c3Input c3Input flatGrid flatGrid
    demCfg demCfg rfl rfl rfl rfl

/-- Every cell collected by the flood fill was already in the accumulator or
is a qualifying cell outside the visited set. -/
theorem floodFill_mem (g : LabelGrid) :
    ∀ (fuel : ℕ) (stack visited comp : List (ℕ × ℕ)) (x : ℕ × ℕ),
      x ∈ floodFill g fuel stack visited comp →
        x ∈ comp ∨ (qualifiesAt g x = true ∧ x ∉ visited) := by
  intro fuel
  induction fuel with
  | zero =>
    intro stack visited comp x hx
    simp only [floodFill] at hx
    exact Or.inl hx
  | succ n ih =>
    intro stack visited comp x hx
    cases stack with
    | nil =>
      simp only [floodFill] at hx
      exact Or.inl hx
    | cons p rest =>
      simp only [floodFill] at hx
      split at hx
      · exact ih rest visited comp x hx
      · rename_i hcond
        push_neg at hcond
        rcases ih _ _ _ x hx with hmem | hq
        · rcases List.mem_cons.mp hmem with hxp | hc
          · subst hxp
            refine Or.inr ⟨?_, hcond.1⟩
            cases hqx : qualifiesAt g x
            · exact absurd hqx hcond.2.2
            · rfl
          · exact Or.inl hc
        · exact Or.inr hq

/-- Every component the clusterer collects consists of qualifying cells not
claimed by the incoming visited set. -/
theorem components_mem (g : LabelGrid) :
    ∀ (l visited : List (ℕ × ℕ)) (comp : List (ℕ × ℕ)),
      comp ∈ components g l visited →
        ∀ x ∈ comp, qualifiesAt g x = true ∧ x ∉ visited := by
  intro l
  induction l with
  | nil =>
    intro visited comp h
    simp [components] at h
  | cons p rest ih =>
    intro visited comp h
    simp only [components] at h
    split at h
    · exact ih visited comp h
    · rcases List.mem_cons.mp h with hhead | h2
      · subst hhead
        intro x hx
        rcases floodFill_mem g _ _ _ _ x hx with hc | hq
        · simp at hc
        · exact hq
      · intro x hx
        have hq := ih _ _ h2 x hx
        exact ⟨hq.1, fun hv => hq.2 (List.mem_append_right _ hv)⟩

/-- The collected components are pairwise disjoint. -/
theorem components_pairwise (g : LabelGrid) :
    ∀ (l visited : List (ℕ × ℕ)),
      List.Pairwise cellsDisjoint (components g l visited) := by
  intro l
  induction l with
  | nil =>
    intro visited
    simp [components]
  | cons p rest ih =>
    intro visited
    simp only [components]
    split
    · exact ih visited
    · refine List.Pairwise.cons ?_ (ih _)
      intro B hB x hxA hxB
      exact (components_mem g rest _ B hB x hxB).2
        (List.mem_append_left _ hxA)

/-- A qualifying cell is in bounds and labeled HIGH or CRITICAL. -/
theorem qualifiesAt_spec (g : LabelGrid) (p : ℕ × ℕ)
    (h : qualifiesAt g p = true) :
    p.1 < g.rows ∧ p.2 < g.cols ∧
      (g.label p.1 p.2 = some RiskLevel.HIGH ∨
        g.label p.1 p.2 = some RiskLevel.CRITICAL) := by
  unfold qualifiesAt at h
  simp only [Bool.and_eq_true, decide_eq_true_eq] at h
  obtain ⟨⟨h1, h2⟩, hm⟩ := h
  refine ⟨h1, h2, ?_⟩
  cases hl : g.label p.1 p.2 with
  | none => rw [hl] at hm; simp at hm
  | some L =>
    cases L <;> rw [hl] at hm <;> simp at hm
    · exact Or.inl rfl
    · exact Or.inr rfl

/-- Membership in the cluster output comes from a collected component that
survived the area filter. -/
theorem mem_cluster (g : LabelGrid) (m : ℚ) (z : CriticalZone)
    (hz : z ∈ cluster g m) :
    (∃ comp ∈ components g (gridCells g.rows g.cols) [], z = mkZone g comp)
      ∧ m ≤ z.area := by
  unfold cluster at hz
  have hz2 := (List.mergeSort_perm _ zoneLE).mem_iff.mp hz
  have hz3 := List.mem_filter.mp hz2
  refine ⟨?_, by simpa using hz3.2⟩
  obtain ⟨comp, hcomp, hmk⟩ := List.mem_map.mp (by
    have := hz3.1
    unfold zoneCands at this
    exact this)
  exact ⟨comp, hcomp, hmk.symm⟩

/-- C4: every cell covered by a returned critical zone is labeled HIGH or
CRITICAL, and the returned zones are pairwise disjoint — no cell belongs to
two zones, so the zones partition the qualifying cells they cover. -/
theorem cluster_zones_subset_and_disjoint (g : LabelGrid) (minArea : ℚ) :
    (∀ z ∈ cluster g minArea, ∀ p ∈ z.cells,
        p.1 < g.rows ∧ p.2 < g.cols ∧
          (g.label p.1 p.2 = some RiskLevel.HIGH ∨
            g.label p.1 p.2 = some RiskLevel.CRITICAL))
      ∧ List.Pairwise (fun z1 z2 => ∀ p, p ∈ z1.cells → p ∉ z2.cells)
          (cluster g minArea) := by
  constructor
  · intro z hz p hp
    obtain ⟨⟨comp, hcomp, hmk⟩, -⟩ := mem_cluster g minArea z hz
    have hcells : z.cells = comp := by rw [hmk]; rfl
    rw [hcells] at hp
    exact qualifiesAt_spec g p
      (components_mem g (gridCells g.rows g.cols) [] comp hcomp p hp).1
  · unfold cluster
    have hsymm : ∀ {z1 z2 : CriticalZone},
        (∀ p, p ∈ z1.cells → p ∉ z2.cells) →
          ∀ p, p ∈ z2.cells → p ∉ z1.cells :=
      fun h p hp2 hp1 => h p hp1 hp2
    rw [List.Perm.pairwise_iff hsymm (List.mergeSort_perm _ zoneLE)]
    have hcands : List.Pairwise
        (fun z1 z2 : CriticalZone => ∀ p, p ∈ z1.cells → p ∉ z2.cells)
        (zoneCands g) := by
      unfold zoneCands
      rw [List.pairwise_map]
      exact components_pairwise g (gridCells g.rows g.cols) []
    exact hcands.sublist (List.filter_sublist _)

/-- Filtering with a weaker predicate keeps at least as many elements. -/
theorem length_filter_le_of_imp {α : Type} (p q : α → Bool)
    (h : ∀ x, p x = true → q x = true) :
    ∀ l : List α, (l.filter p).length ≤ (l.filter q).length := by
  intro l
  induction l with
  | nil => simp
  | cons a t ih =>
    by_cases hp : p a = true
    · rw [List.filter_cons_of_pos hp, List.filter_cons_of_pos (h a hp)]
      simpa using ih
    · rw [List.filter_cons_of_neg (by simpa using hp)]
      by_cases hq : q a = true
      · rw [List.filter_cons_of_pos hq]
        exact ih.trans (Nat.le_succ _)
      · rw [List.filter_cons_of_neg (by simpa using hq)]
        exact ih

/-- C5: no returned zone has area below min_area, and the number of returned
zones is antitone in min_area — a larger threshold never yields more
zones. -/
theorem cluster_min_area_and_antitone (g : LabelGrid) :
    (∀ m : ℚ, ∀ z ∈ cluster g m, m ≤ z.area)
      ∧ (∀ m1 m2 : ℚ, m1 ≤ m2 →
          (cluster g m2).length ≤ (cluster g m1).length) := by
  constructor
  · intro m z hz
    exact (mem_cluster g m z hz).2
  · intro m1 m2 h12
    unfold cluster
    rw [List.length_mergeSort, List.length_mergeSort]
    refine length_filter_le_of_imp _ _ (fun z hz => ?_) (zoneCands g)
    simp only [decide_eq_true_eq] at hz ⊢
    linarith


/-- The four per-label counts partition the validly labeled cells. -/
theorem countP_label_partition (f : ℕ × ℕ → Option RiskLevel) :
    ∀ l : List (ℕ × ℕ),
      l.countP (fun p => decide (f p = some RiskLevel.LOW))
        + l.countP (fun p => decide (f p = some RiskLevel.MODERATE))
        + l.countP (fun p => decide (f p = some RiskLevel.HIGH))
        + l.countP (fun p => decide (f p = some RiskLevel.CRITICAL))
        = l.countP (fun p => (f p).isSome) := by
  intro l
  induction l with
  | nil => simp
  | cons a t ih =>
    simp only [List.countP_cons]
    cases hf : f a with
    | none => simp [hf]; omega
    | some L => cases L <;> simp [hf] <;> omega

/-- C6: whenever assess succeeds, the four risk-distribution percentages,
computed over the validly labeled (non-nodata) cells only, sum to exactly
100 — in particular within a tolerance of one millionth. -/
theorem risk_distribution_sums_to_100 (g : RasterGrid) (cfg : DEMConfig)
    (rpt : RiskReport) (hok : assess g cfg = Except.ok rpt) :
    rpt.low_risk.percentage + rpt.moderate_risk.percentage
        + rpt.high_risk.percentage + rpt.critical_risk.percentage = 100
      ∧ ratAbs (rpt.low_risk.percentage + rpt.moderate_risk.percentage
          + rpt.high_risk.percentage + rpt.critical_risk.percentage - 100)
        ≤ 1 / 1000000 := by
  unfold assess at hok
  split at hok
  · exact absurd hok (by simp)
  split at hok
  · exact absurd hok (by simp)
  split at hok
  · exact absurd hok (by simp)
  split at hok
  · exact absurd hok (by simp)
  rename_i h1 h2 h3 h4
  rw [Except.ok.injEq] at hok
  subst hok
  have hpart := countP_label_partition
    (fun p => (labelGridOf g cfg).label p.1 p.2) (gridCells g.rows g.cols)
  have hn0 : ((labeledCount g cfg : ℚ)) ≠ 0 := by
    exact_mod_cast h4
  have hsum : ((countLabel g cfg RiskLevel.LOW : ℚ))
      + (countLabel g cfg RiskLevel.MODERATE : ℚ)
      + (countLabel g cfg RiskLevel.HIGH : ℚ)
      + (countLabel g cfg RiskLevel.CRITICAL : ℚ)
      = (labeledCount g cfg : ℚ) := by
    have := hpart
    unfold countLabel labeledCount
    exact_mod_cast this
  have hS : (100 : ℚ) * (countLabel g cfg RiskLevel.LOW : ℚ)
        / (labeledCount g cfg : ℚ)
      + 100 * (countLabel g cfg RiskLevel.MODERATE : ℚ)
        / (labeledCount g cfg : ℚ)
      + 100 * (countLabel g cfg RiskLevel.HIGH : ℚ)
        / (labeledCount g cfg : ℚ)
      + 100 * (countLabel g cfg RiskLevel.CRITICAL : ℚ)
        / (labeledCount g cfg : ℚ) = 100 := by
    field_simp
    linarith
  refine ⟨hS, ?_⟩
  rw [hS]
  norm_num [ratAbs]

/-- Terrain derivatives on the flat grid, top-left cell. -/
theorem slopeRough_flat00 : slopeRough flatGrid (0, 0) = some (0, 0) := by
  norm_num [slopeRough, validNbrVals, nbrs8, flatGrid, ratAbs, listMax, maxQ,
    List.filterMap_cons, List.filterMap_nil, List.map_cons, List.map_nil,
    List.sum_cons, List.sum_nil, List.length_cons, List.length_nil]

/-- Terrain derivatives on the flat grid, top-right cell. -/
theorem slopeRough_flat01 : slopeRough flatGrid (0, 1) = some (0, 0) := by
  norm_num [slopeRough, validNbrVals, nbrs8, flatGrid, ratAbs, listMax, maxQ,
    List.filterMap_cons, List.filterMap_nil, List.map_cons, List.map_nil,
    List.sum_cons, List.sum_nil, List.length_cons, List.length_nil]

/-- Terrain derivatives on the flat grid, bottom-left cell. -/
theorem slopeRough_flat10 : slopeRough flatGrid (1, 0) = some (0, 0) := by
  norm_num [slopeRough, validNbrVals, nbrs8, flatGrid, ratAbs, listMax, maxQ,
    List.filterMap_cons, List.filterMap_nil, List.map_cons, List.map_nil,
    List.sum_cons, List.sum_nil, List.length_cons, List.length_nil]

/-- Terrain derivatives on the flat grid, bottom-right cell. -/
theorem slopeRough_flat11 : slopeRough flatGrid (1, 1) = some (0, 0) := by
  norm_num [slopeRough, validNbrVals, nbrs8, flatGrid, ratAbs, listMax, maxQ,
    List.filterMap_cons, List.filterMap_nil, List.map_cons, List.map_nil,
    List.sum_cons, List.sum_nil, List.length_cons, List.length_nil]

/-- Evaluation of the DEM analysis on the flat grid. -/
theorem assess_flat_eval : assess flatGrid demCfg = Except.ok flatReport := by
  have hrows : flatGrid.rows = 2 := rfl
  have hcols : flatGrid.cols = 2 := rfl
  have hsize : flatGrid.cellSize = 10 := rfl
  have helev : flatGrid.elev
      = fun r c => if r < 2 && c < 2 then some 100 else none := rfl
  norm_num [assess, validCount, labeledCount, countLabel, labelGridOf,
    gridCells, classifyCell, cluster, zoneCands, components, qualifiesAt,
    demCfg, flatReport, listMax, maxQ, hrows, hcols, hsize, helev,
    slopeRough_flat00, slopeRough_flat01, slopeRough_flat10,
    slopeRough_flat11, List.range, List.range.loop, List.countP_cons,
    List.countP_nil, List.mergeSort_nil, List.filterMap_cons,
    List.filterMap_nil]
  norm_num +decide [ratAbs]

/-- Witness for C6 on the flat grid. -/
theorem risk_distribution_sums_to_100_witness :
    flatReport.low_risk.percentage + flatReport.moderate_risk.percentage
        + flatReport.high_risk.percentage + flatReport.critical_risk.percentage
      = 100 :=
  (risk_distribution_sums_to_100 flatGrid demCfg flatReport assess_flat_eval).1

/-- The zone ordering is total. -/
theorem zoneLE_total (a b : CriticalZone) : (zoneLE a b || zoneLE b a) = true := by
  simp only [zoneLE, Bool.or_eq_true, Bool.and_eq_true, decide_eq_true_eq]
  rcases lt_trichotomy a.area b.area with h | h | h
  · exact Or.inr (Or.inl h)
  · rcases lt_trichotomy a.mean_slope b.mean_slope with hs | hs | hs
    · exact Or.inr (Or.inr ⟨h.symm, Or.inl hs⟩)
    · rcases Nat.le_total a.anchor b.anchor with hle | hle
      · exact Or.inl (Or.inr ⟨h, Or.inr ⟨hs, hle⟩⟩)
      · exact Or.inr (Or.inr ⟨h.symm, Or.inr ⟨hs.symm, hle⟩⟩)
    · exact Or.inl (Or.inr ⟨h, Or.inl hs⟩)
  · exact Or.inl (Or.inl h)

/-- The zone ordering is transitive. -/
theorem zoneLE_trans (a b c : CriticalZone)
    (hab : zoneLE a b = true) (hbc : zoneLE b c = true) :
    zoneLE a c = true := by
  simp only [zoneLE, Bool.or_eq_true, Bool.and_eq_true,
    decide_eq_true_eq] at hab hbc ⊢
  rcases hab with h1 | ⟨e1, p1⟩
  · rcases hbc with h2 | ⟨e2, p2⟩
    · exact Or.inl (lt_trans h2 h1)
    · exact Or.inl (e2 ▸ h1)
  · rcases hbc with h2 | ⟨e2, p2⟩
    · refine Or.inl ?_
      rw [e1]
      exact h2
    · refine Or.inr ⟨e1.trans e2, ?_⟩
      rcases p1 with s1 | ⟨s1, a1⟩
      · rcases p2 with s2 | ⟨s2, a2⟩
        · exact Or.inl (lt_trans s2 s1)
        · exact Or.inl (s2 ▸ s1)
      · rcases p2 with s2 | ⟨s2, a2⟩
        · refine Or.inl ?_
          rw [s1]
          exact s2
        · exact Or.inr ⟨s1.trans s2, le_trans a1 a2⟩

/-- The zone ordering refines descending area. -/
theorem zoneLE_area (a b : CriticalZone) (h : zoneLE a b = true) :
    b.area ≤ a.area := by
  simp only [zoneLE, Bool.or_eq_true, Bool.and_eq_true,
    decide_eq_true_eq] at h
  rcases h with h | ⟨h, -⟩
  · exact le_of_lt h
  · exact le_of_eq h.symm

/-- The cluster output is sorted by descending area. -/
theorem cluster_sorted_by_area (g : LabelGrid) (m : ℚ) :
    List.Pairwise (fun a b : CriticalZone => b.area ≤ a.area)
      (cluster g m) := by
  unfold cluster
  exact (List.sorted_mergeSort zoneLE_trans zoneLE_total
    ((zoneCands g).filter (fun z => decide (m ≤ z.area)))).imp
    (fun hab => zoneLE_area _ _ hab)

/-- C2 counterexample: the risk report the DEM analysis actually produces
does not map the risk-distribution labels directly to numbers — on the flat
grid, the produced report serializes each label to a nested record, exactly
the shape RockfallSystem.analyze_dem dereferences at main.py line 208, so
the claimed flat shape is false. -/
theorem report_distribution_not_flat :
    assess flatGrid demCfg = Except.ok flatReport
      ∧ distDirectNumeric (reportJson flatReport) = false
      ∧ jLookup [("low_risk", entryJson flatReport.low_risk),
          ("moderate_risk", entryJson flatReport.moderate_risk),
          ("high_risk", entryJson flatReport.high_risk),
          ("critical_risk", entryJson flatReport.critical_risk)]
          ("high_risk")
        = some (Json.obj [("percentage", Json.num 0),
            ("cell_count", Json.num 0)]) :=
  ⟨assess_flat_eval, rfl, rfl⟩

/-- C2 amended: every successful DEM analysis produces a report whose
serialization has exactly the top-level keys risk_distribution,
critical_zones and max_slope, whose risk_distribution maps each label key to
a nested record carrying a numeric percentage field (the shape the consumer
in main.py dereferences), and whose critical_zones are sorted by descending
area. -/
theorem report_shape_amended (g : RasterGrid) (cfg : DEMConfig)
    (rpt : RiskReport) (hok : assess g cfg = Except.ok rpt) :
    topShape (reportJson rpt) = true
      ∧ distNestedShape (reportJson rpt) = true
      ∧ List.Pairwise (fun a b : CriticalZone => b.area ≤ a.area)
          rpt.critical_zones := by
  refine ⟨rfl, rfl, ?_⟩
  unfold assess at hok
  split at hok
  · exact absurd hok (by simp)
  split at hok
  · exact absurd hok (by simp)
  split at hok
  · exact absurd hok (by simp)
  split at hok
  · exact absurd hok (by simp)
  rw [Except.ok.injEq] at hok
  subst hok
  exact cluster_sorted_by_area (labelGridOf g cfg) cfg.minArea

/-- Witness for the amended C2 on the flat grid. -/
theorem report_shape_amended_witness :
    topShape (reportJson flatReport) = true
      ∧ List.Pairwise (fun a b : CriticalZone => b.area ≤ a.area)
          flatReport.critical_zones :=
  ⟨(report_shape_amended flatGrid demCfg flatReport assess_flat_eval).1,
   (report_shape_amended flatGrid demCfg flatReport assess_flat_eval).2.2⟩

/-- While ALERTED at the level of the last alert, further observations at
that level emit nothing and leave the state unchanged. -/
theorem runAlerts_dedup (cfg : AlertConfig) (lvl : RiskLevel)
    (hthr : levelRank cfg.threshold ≤ levelRank lvl) :
    ∀ (ts : List ℕ) (st : AlertState), st.alerted = true →
      st.lastLevel = lvl →
      (runAlerts cfg st (ts.map (fun t => (t, lvl)))).2 = [] := by
  intro ts
  induction ts with
  | nil =>
    intro st h1 h2
    rfl
  | cons t rest ih =>
    intro st h1 h2
    have hstep : alertStep cfg st t lvl = (st, none) := by
      unfold alertStep
      rw [h1]
      rw [if_pos rfl, if_pos hthr, if_neg (by rw [h2]; exact lt_irrefl _)]
    simp only [List.map, runAlerts, hstep]
    simpa using ih st h1 h2

/-- C8: the alert state machine emits an alert exactly at the QUIET-to-
ALERTED crossing and exactly once per crossing — repeated observations at
the same elevated level emit nothing (final conjunct); while ALERTED no
alert is emitted at or below the last alerted level; below the threshold the
state stays ALERTED with no emission until the cooldown has elapsed, and
then returns to QUIET so a new rise can alert again; a strict increase to a
higher category while ALERTED emits an escalation alert. -/
theorem alert_crossing_and_hysteresis (cfg : AlertConfig) (st : AlertState)
    (t : ℕ) (lvl : RiskLevel) :
    (st.alerted = false → levelRank cfg.threshold ≤ levelRank lvl →
      alertStep cfg st t lvl
        = (AlertState.mk true t lvl, some (AlertEvent.alert t lvl)))
      ∧ (st.alerted = true → levelRank cfg.threshold ≤ levelRank lvl →
          levelRank lvl ≤ levelRank st.lastLevel →
          alertStep cfg st t lvl = (st, none))
      ∧ (st.alerted = true → levelRank lvl < levelRank cfg.threshold →
          t - st.lastAlertTime < cfg.cooldown →
          alertStep cfg st t lvl = (st, none))
      ∧ (st.alerted = true → levelRank lvl < levelRank cfg.threshold →
          cfg.cooldown ≤ t - st.lastAlertTime →
          alertStep cfg st t lvl
            = (AlertState.mk false st.lastAlertTime lvl, none))
      ∧ (st.alerted = true → levelRank cfg.threshold ≤ levelRank lvl →
          levelRank st.lastLevel < levelRank lvl →
          alertStep cfg st t lvl
            = (AlertState.mk true t lvl, some (AlertEvent.escalation t lvl)))
      ∧ (∀ ts : List ℕ, st.alerted = false →
          levelRank cfg.threshold ≤ levelRank lvl →
          (runAlerts cfg st (((t :: ts)).map (fun u => (u, lvl)))).2
            = [AlertEvent.alert t lvl]) := by
  refine ⟨?_, ?_, ?_, ?_, ?_, ?_⟩
  · intro h1 h2
    unfold alertStep
    rw [h1]
    simp only [Bool.false_eq_true, if_false]
    rw [if_pos h2]
  · intro h1 h2 h3
    unfold alertStep
    rw [h1]
    rw [if_pos rfl, if_pos h2, if_neg (by omega)]
  · intro h1 h2 h3
    unfold alertStep
    rw [h1]
    rw [if_pos rfl, if_neg (by omega), if_neg (by omega)]
  · intro h1 h2 h3
    unfold alertStep
    rw [h1]
    rw [if_pos rfl, if_neg (by omega), if_pos h3]
  · intro h1 h2 h3
    unfold alertStep
    rw [h1]
    rw [if_pos rfl, if_pos h2, if_pos h3]
  · intro ts h1 h2
    have hstep : alertStep cfg st t lvl
        = (AlertState.mk true t lvl, some (AlertEvent.alert t lvl)) := by
      unfold alertStep
      rw [h1]
      simp only [Bool.false_eq_true, if_false]
      rw [if_pos h2]
    simp only [List.map, runAlerts, hstep]
    have htail := runAlerts_dedup cfg lvl h2 ts (AlertState.mk true t lvl)
      rfl rfl
    simp [htail]

/-- Witness for C8: with threshold HIGH and cooldown 5, starting QUIET, a
crossing followed by two repeated HIGH observations emits exactly the one
crossing alert, and a drop below threshold before the cooldown emits
nothing and stays ALERTED. -/
theorem alert_crossing_and_hysteresis_witness :
    (runAlerts (AlertConfig.mk RiskLevel.HIGH 5)
        (AlertState.mk false 0 RiskLevel.LOW)
        (([0, 1, 2] : List ℕ).map (fun u => (u, RiskLevel.HIGH)))).2
      = [AlertEvent.alert 0 RiskLevel.HIGH]
      ∧ alertStep (AlertConfig.mk RiskLevel.HIGH 5)
          (AlertState.mk true 0 RiskLevel.HIGH) 3 RiskLevel.LOW
        = (AlertState.mk true 0 RiskLevel.HIGH, none) :=
  ⟨(alert_crossing_and_hysteresis (AlertConfig.mk RiskLevel.HIGH 5)
      (AlertState.mk false 0 RiskLevel.LOW) 0 RiskLevel.HIGH).2.2.2.2.2
      [1, 2] rfl (by decide),
   (alert_crossing_and_hysteresis (AlertConfig.mk RiskLevel.HIGH 5)
      (AlertState.mk true 0 RiskLevel.HIGH) 3 RiskLevel.LOW).2.2.1
      rfl (by decide) (by decide)⟩

/-- C10: main returns exit code 0 whenever the selected mode handler returns
normally — including when the handler reports failure by returning False,
since the return value is discarded — returns 0 on a KeyboardInterrupt, and
returns 1 exactly when any other exception escapes the dispatch; in
particular a train run whose inner training raised an ordinary exception is
swallowed by train_model returning False and main still exits 0. -/
theorem main_exit_codes (handler : Mode → Except PyExc Bool) (mode : Mode) :
    (∀ b, handler mode = Except.ok b → mainExitCode handler mode = 0)
      ∧ (handler mode = Except.error PyExc.keyboardInterrupt →
          mainExitCode handler mode = 0)
      ∧ (∀ msg, handler mode = Except.error (PyExc.other msg) →
          mainExitCode handler mode = 1)
      ∧ (∀ inner, mainExitCode (fun _ => train_model inner) mode = 0) := by
  refine ⟨?_, ?_, ?_, ?_⟩
  · intro b hb
    unfold mainExitCode
    rw [hb]
  · intro hb
    unfold mainExitCode
    rw [hb]
  · intro msg hb
    unfold mainExitCode
    rw [hb]
  · intro inner
    cases inner with
    | ok b => exact rfl
    | error e =>
      cases e with
      | keyboardInterrupt => exact rfl
      | other msg => exact rfl

/-- Witness for C10: a train run that failed and returned False still exits
with code 0, and an ordinary exception escaping the dispatch exits 1. -/
theorem main_exit_codes_witness :
    mainExitCode (fun _ => Except.ok false) Mode.train = 0
      ∧ mainExitCode (fun _ => Except.error (PyExc.other ("boom"))) Mode.dem
        = 1 :=
  ⟨(main_exit_codes (fun _ => Except.ok false) Mode.train).1 false rfl,
   (main_exit_codes (fun _ => Except.error (PyExc.other ("boom")))
      Mode.dem).2.2.1 ("boom") rfl⟩

/-- Evaluation of the clusterer on the one-cell HIGH grid. -/
theorem cluster_gW2_eval : cluster gW2 1 = [zoneW] := by
  norm_num [cluster, zoneCands, components, gridCells, qualifiesAt,
    floodFill, clusterFuel, nbrs4, mkZone, natListMin, natListMax, gW2,
    zoneW, List.range, List.range.loop, List.filter_cons, List.filter_nil,
    List.mergeSort_singleton, List.map_cons, List.map_nil, List.sum_cons,
    List.sum_nil, List.length_cons, List.length_nil]

/-- Witness for C4 on the one-cell HIGH grid: the returned zone covers only
the HIGH cell, and the returned zones are pairwise disjoint. -/
theorem cluster_zones_subset_and_disjoint_witness :
    (gW2.label 0 0 = some RiskLevel.HIGH ∨
        gW2.label 0 0 = some RiskLevel.CRITICAL)
      ∧ List.Pairwise (fun z1 z2 => ∀ p, p ∈ z1.cells → p ∉ z2.cells)
          (cluster gW2 1) :=
  ⟨((cluster_zones_subset_and_disjoint gW2 1).1 zoneW
      (by rw [cluster_gW2_eval]; exact List.mem_singleton.mpr rfl)
      (0, 0) (by simp [zoneW])).2.2,
   (cluster_zones_subset_and_disjoint gW2 1).2⟩

/-- Witness for C5: the zone returned on the one-cell HIGH grid meets the
area threshold 1, and on the three-by-three witness grid raising the
threshold from 1 to 4 does not increase the zone count. -/
theorem cluster_min_area_and_antitone_witness :
    (1 : ℚ) ≤ zoneW.area
      ∧ (cluster gW 4).length ≤ (cluster gW 1).length :=
  ⟨(cluster_min_area_and_antitone gW2).1 1 zoneW
      (by rw [cluster_gW2_eval]; exact List.mem_singleton.mpr rfl),
   (cluster_min_area_and_antitone gW).2 1 4 (by norm_num)⟩
